import Mathlib

/-!
Verification model of the kyuubi-submit batch client.

Strings from the Python source are modelled as lists of characters
(`Chars`). Each definition below is a direct translation of a function in
src/kyuubi-submit.py (or of the Python standard-library behaviour it
relies on: urllib.parse.urlparse, os.path.splitext, str.split, str.strip,
dict assignment). The local filesystem and the environment-variable or
home-directory expansion are passed in as explicit parameters, since they
are the only effectful inputs of the path classifier.
-/

abbrev Chars := List Char

/-- Index of the first occurrence of a character, like Python str.find
when the result is checked for presence. -/
def idxOf : Char → Chars → Option Nat
  | _, [] => none
  | c, x :: xs => if x = c then some 0 else (idxOf c xs).map (· + 1)

/-- Index of the last occurrence of a character, like Python str.rfind. -/
def rIdxOf (c : Char) (l : Chars) : Option Nat :=
  (idxOf c l.reverse).map (fun i => l.length - 1 - i)

/-- Index of the first occurrence of a character at or after a start
index, like Python str.find with a start argument. -/
def idxOfFrom (c : Char) (start : Nat) (l : Chars) : Option Nat :=
  (idxOf c (l.drop start)).map (fun i => i + start)

/-- Characters allowed in a URI scheme, after the first, by
urllib.parse (scheme_chars). -/
def scheme_char (c : Char) : Bool :=
  c.isAlpha || c.isDigit || c == '+' || c == '-' || c == '.'

/-- Scheme extraction of urllib.parse.urlsplit: the text before the first
colon is a scheme when the colon is not first, the first character is an
ASCII letter and every character before the colon is a scheme character;
the scheme is lowercased. Returns the scheme and the remainder. -/
def splitScheme (url : Chars) : Chars × Chars :=
  match idxOf ':' url with
  | some i =>
    if 0 < i ∧ (url.headD ' ').isAlpha = true ∧ (url.take i).all scheme_char = true
    then ((url.take i).map Char.toLower, url.drop (i + 1))
    else ([], url)
  | none => ([], url)

/-- Path component of urllib.parse.urlsplit: after removing the scheme,
a leading double slash introduces a network location that extends to the
first slash, question mark or hash; then the fragment and the query are
cut off. -/
def urlsplitPath (url : Chars) : Chars :=
  let rest := (splitScheme url).2
  let rest :=
    if rest.take 2 = ('/' :: '/' :: [])
    then (rest.drop 2).dropWhile (fun c => !(c == '/' || c == '?' || c == '#'))
    else rest
  let rest := rest.takeWhile (fun c => !(c == '#'))
  rest.takeWhile (fun c => !(c == '?'))

/-- Schemes for which urllib.parse.urlparse splits parameters off the
path (uses_params in urllib.parse). -/
def uses_params : List Chars :=
  [[], "ftp".data, "hdl".data, "prospero".data, "http".data, "imap".data,
   "https".data, "shttp".data, "rtsp".data, "rtspu".data, "sip".data,
   "sips".data, "mms".data, "sftp".data, "tel".data]

/-- Parameter split of urllib.parse, applied to a path that contains a
semicolon: when the path contains a slash, parameters start at the first
semicolon after the last slash; otherwise at the first semicolon. -/
def splitParamsPath (p : Chars) : Chars :=
  if '/' ∈ p then
    match idxOfFrom ';' ((rIdxOf '/' p).getD 0) p with
    | some i => p.take i
    | none => p
  else p.take ((idxOf ';' p).getD p.length)

/-- The path attribute of urllib.parse.urlparse. -/
def urlparsePath (url : Chars) : Chars :=
  let scheme := (splitScheme url).1
  let p := urlsplitPath url
  if scheme ∈ uses_params ∧ ';' ∈ p then splitParamsPath p else p

/-- Extension part of os.path.splitext (posixpath): the suffix starting
at the last dot, provided that dot lies after the last slash and the
base name has at least one non-dot character before it. -/
def splitextExt (p : Chars) : Chars :=
  match rIdxOf '.' p with
  | none => []
  | some dotIdx =>
    let fStart := match rIdxOf '/' p with
      | some s => s + 1
      | none => 0
    if fStart ≤ dotIdx ∧ ((p.drop fStart).take (dotIdx - fStart)).any (fun c => c != '.') = true
    then p.drop dotIdx
    else []

/-- KyuubiBatchSubmitter.get_file_extension: when the string has a URI
scheme the path component of urlparse is used, then the splitext
extension is taken and lowercased. -/
def get_file_extension (path : Chars) : Chars :=
  let scheme := (splitScheme path).1
  let p := if scheme ≠ [] then urlparsePath path else path
  (splitextExt p).map Char.toLower

/-- KyuubiBatchSubmitter.PYTHON_EXTENSIONS. -/
def PYTHON_EXTENSIONS : List Chars :=
  [".py".data, ".zip".data, ".egg".data]

/-- KyuubiBatchSubmitter.is_python_resource. -/
def is_python_resource (resource : Chars) : Bool :=
  decide (get_file_extension resource ∈ PYTHON_EXTENSIONS)

/-- KyuubiBatchSubmitter.REMOTE_SCHEMES. -/
def REMOTE_SCHEMES : List Chars :=
  ["hdfs".data, "s3".data, "s3a".data, "s3n".data, "gs".data, "wasb".data,
   "wasbs".data, "abfs".data, "abfss".data, "http".data, "https".data,
   "ftp".data, "local".data]

/-- KyuubiBatchSubmitter.is_local_file. The filesystem is the predicate
fs (os.path.isfile) and expand models os.path.expanduser composed with
os.path.expandvars; both are applied exactly where the source applies
them. An empty path is not local; a known remote scheme is not local; an
unknown scheme longer than one character is not local; otherwise the
expanded path is local exactly when a file exists there. -/
def is_local_file (fs : Chars → Bool) (expand : Chars → Chars) (path : Chars) : Bool :=
  if path = [] then false
  else if (splitScheme path).1 ≠ [] ∧ ((splitScheme path).1.map Char.toLower) ∈ REMOTE_SCHEMES then false
  else if (splitScheme path).1 ≠ [] ∧ 1 < (splitScheme path).1.length then false
  else fs (expand path)

/-- Whitespace characters removed by Python str.strip. -/
def pyWs (c : Char) : Bool :=
  c == ' ' || c == '\t' || c == '\n' || c == '\x0d' || c == '\x0b' || c == '\x0c'

/-- Python str.strip with no argument. -/
def pyStrip (l : Chars) : Chars :=
  ((l.dropWhile pyWs).reverse.dropWhile pyWs).reverse

/-- Python str.split on a single separator character with no limit:
always returns at least one piece, empty pieces included. -/
def splitOnChar (sep : Char) : Chars → List Chars
  | [] => [[]]
  | c :: rest =>
    let r := splitOnChar sep rest
    if c = sep then [] :: r
    else (c :: r.headD []) :: r.tail

/-- Python dict assignment d[k] = v on an insertion-ordered dictionary
represented as an association list with unique keys: an existing key
keeps its position and gets the new value, a new key is appended. -/
def dictInsert : List (Chars × Chars) → Chars → Chars → List (Chars × Chars)
  | [], k, v => [(k, v)]
  | (k', v') :: rest, k, v =>
    if k' = k then (k, v) :: rest else (k', v') :: dictInsert rest k v

/-- Dictionary lookup d[k] returning the value for the first matching
key. -/
def dictLookup : List (Chars × Chars) → Chars → Option Chars
  | [], _ => none
  | (k', v) :: rest, k => if k' = k then some v else dictLookup rest k

/-- One iteration of the loop in KyuubiBatchSubmitter.parse_conf: strip
the item, and when it contains an equals sign split at the first one,
strip key and value and store them; otherwise leave the dictionary
unchanged. -/
def parseConfStep (d : List (Chars × Chars)) (item0 : Chars) : List (Chars × Chars) :=
  let item := pyStrip item0
  if '=' ∈ item then
    dictInsert d (pyStrip (item.takeWhile (fun c => c != '=')))
      (pyStrip ((item.dropWhile (fun c => c != '=')).tail))
  else d

/-- KyuubiBatchSubmitter.parse_conf: a falsy (empty) string yields the
empty dictionary, otherwise the comma-separated items are folded through
parseConfStep. -/
def parse_conf (s : Chars) : List (Chars × Chars) :=
  if s = [] then [] else (splitOnChar ',' s).foldl parseConfStep []

/-- KyuubiBatchSubmitter.classify_paths: strip each path, skip empties,
and classify the rest into local (original, expanded) pairs and remote
strings, preserving input order. -/
def classify_paths (fs : Chars → Bool) (expand : Chars → Chars) :
    List Chars → List (Chars × Chars) × List Chars
  | [] => ([], [])
  | p0 :: rest =>
    let p := pyStrip p0
    let r := classify_paths fs expand rest
    if p = [] then r
    else if is_local_file fs expand p = true then ((p, expand p) :: r.1, r.2)
    else (r.1, p :: r.2)

/-- The args argument of submit_batch: a Python string, list or None. -/
inductive ArgsInput where
  | argStr (s : Chars)
  | argList (l : List Chars)
  | argNone
deriving DecidableEq

/-- args.split on a comma when args is a truthy string, otherwise args
or the empty list. -/
def argsList : ArgsInput → List Chars
  | .argStr s => if s ≠ [] then splitOnChar ',' s else []
  | .argList l => l
  | .argNone => []

/-- The conf argument of submit_batch: a Python string, dict or None. -/
inductive ConfInput where
  | confStr (s : Chars)
  | confDict (d : List (Chars × Chars))
  | confNone
deriving DecidableEq

/-- conf handling of submit_batch before the forced key: parse_conf for
a string, conf or the empty dict otherwise. -/
def confMap : ConfInput → List (Chars × Chars)
  | .confStr s => parse_conf s
  | .confDict d => d
  | .confNone => []

/-- The py_files and jars arguments of submit_batch: a Python string,
list or None. -/
inductive FilesInput where
  | filesStr (s : Chars)
  | filesList (l : List Chars)
  | filesNone
deriving DecidableEq

/-- Normalisation of py_files and jars in submit_batch: a string is
split on commas, each piece stripped and empties dropped; a list keeps
its truthy entries; None gives the empty list. -/
def filesEntries : FilesInput → List Chars
  | .filesStr s => ((splitOnChar ',' s).map pyStrip).filter (fun f => f ≠ [])
  | .filesList l => l.filter (fun f => f ≠ [])
  | .filesNone => []

/-- spark.submit.deployMode, the configuration key forced by
submit_batch. -/
def DEPLOY_MODE_KEY : Chars := "spark.submit.deployMode".data

/-- The batch_request dictionary built by submit_batch, with optional
fields absent exactly when the source leaves the key unset. -/
structure BatchRequest where
  batchType : Chars
  reqName : Chars
  args : List Chars
  resource : Option Chars
  className : Option Chars
  conf : List (Chars × Chars)
  pyFiles : Option (List Chars)
  jars : Option (List Chars)
deriving DecidableEq

/-- Everything submit_batch decides before performing HTTP: the request
dictionary serialised into the JSON part, whether multipart upload is
used, and which local files are attached as uploads. -/
structure Submission where
  request : BatchRequest
  usesMultipart : Bool
  resourceUpload : Option Chars
  pyFileUploads : List (Chars × Chars)
  jarUploads : List (Chars × Chars)
deriving DecidableEq

/-- The pure part of KyuubiBatchSubmitter.submit_batch together with the
payload assembly of _submit_multipart: the batchRequest JSON part of a
multipart submission is exactly the request dictionary built here. -/
def submitBatchPlan (fs : Chars → Bool) (expand : Chars → Chars)
    (resource : Chars) (classname : Option Chars) (jobName : Chars)
    (args : ArgsInput) (conf : ConfInput) (pyFiles jars : FilesInput) : Submission :=
  let is_pyspark := is_python_resource resource
  let resource_is_local := is_local_file fs expand resource
  let cpy := classify_paths fs expand (filesEntries pyFiles)
  let cjar := classify_paths fs expand (filesEntries jars)
  { request :=
      { batchType := if is_pyspark then "pyspark".data else "spark".data
        reqName := jobName
        args := argsList args
        resource := if resource_is_local then none else some resource
        className :=
          match classname with
          | some c => if c ≠ [] ∧ is_pyspark = false then some c else none
          | none => none
        conf := dictInsert (confMap conf) DEPLOY_MODE_KEY ("cluster".data)
        pyFiles := if cpy.2 = [] then none else some cpy.2
        jars := if cjar.2 = [] then none else some cjar.2 }
    usesMultipart := resource_is_local || !cpy.1.isEmpty || !cjar.1.isEmpty
    resourceUpload := if resource_is_local then some (expand resource) else none
    pyFileUploads := cpy.1
    jarUploads := cjar.1 }

/-- Result of the HTTP response handling at the end of submit_batch. -/
inductive SubmitResult where
  | ok (batchId : Chars)
  | submissionError (statusCode : Nat)
  | protocolError
deriving DecidableEq

/-- Response handling of submit_batch: any status other than 200 or 201
raises an exception carrying the status code; otherwise the id field of
the JSON body is returned, and its absence raises (a KeyError). -/
def submitOutcome (statusCode : Nat) (bodyId : Option Chars) : SubmitResult :=
  if ¬(statusCode = 200 ∨ statusCode = 201) then .submissionError statusCode
  else
    match bodyId with
    | some i => .ok i
    | none => .protocolError

/-- KyuubiBatchSubmitter.get_batch_status: None on any status other than
200, otherwise the parsed body. -/
def getBatchStatus (httpStatus : Nat) (body : String) : Option String :=
  if httpStatus ≠ 200 then none else some body

/-- Parsed body of one localLog response: the logRowSet list and the
total reported by the server (with the Python .get defaults already
applied). -/
structure LogChunk where
  logRowSet : List String
  total : Nat
deriving DecidableEq

/-- KyuubiBatchSubmitter.print_all_logs, with the server modelled as a
function from the requested offset to the fetch result (none for a
non-200 response or a falsy body) and a fuel bound making the while
loop a total function: some gives the count of printed lines on normal
exit, none means the loop was still running when the fuel ran out. -/
def printAllLogs (server : Nat → Option LogChunk) : Nat → Nat → Nat → Option Nat
  | 0, _, _ => none
  | fuel + 1, fromIndex, printed =>
    match server fromIndex with
    | none => some printed
    | some chunk =>
      if chunk.total ≤ fromIndex + chunk.logRowSet.length
      then some (printed + chunk.logRowSet.length)
      else printAllLogs server fuel (fromIndex + chunk.logRowSet.length)
             (printed + chunk.logRowSet.length)

/-- One status poll as seen by the monitor loop: failed covers an
exception inside the try block and a None result of get_batch_status;
otherwise the state and appState strings of the body (appState empty
when absent or null). -/
inductive PollResult where
  | failed
  | status (state appState : String)
deriving DecidableEq

/-- One iteration of the while loop in KyuubiBatchSubmitter.monitor_job:
some r means the iteration returns r, none means the loop sleeps and
polls again. -/
def monitorStep : PollResult → Option String
  | .failed => none
  | .status s a =>
    if s = "FINISHED" then some (if a ≠ "" then a else s)
    else if s = "ERROR" ∨ s = "CANCELLED" then some s
    else none

/-- The monitor loop run against a finite prefix of poll results:
returns the final state it would report together with the number of
status polls issued; none in the first component means every listed
poll was consumed without reaching a terminal state. -/
def monitorRun : List PollResult → Option String × Nat
  | [] => (none, 0)
  | p :: rest =>
    match monitorStep p with
    | some r => (some r, 1)
    | none => ((monitorRun rest).1, (monitorRun rest).2 + 1)

/-- Client-facing outcome buckets of the final-state dispatch in main. -/
inductive Outcome where
  | succeeded
  | failed
  | cancelled
  | unknownTerminal
deriving DecidableEq

/-- The dispatch on final_state at the end of main, paired with the
process exit code it produces (0 for the successful fall-through). -/
def mainOutcome (finalState : String) : Outcome × Nat :=
  if finalState = "FAILED" ∨ finalState = "ERROR" then (.failed, 1)
  else if finalState = "CANCELLED" then (.cancelled, 2)
  else if finalState = "SUCCESS" ∨ finalState = "SUCCEEDED" ∨ finalState = "FINISHED"
  then (.succeeded, 0)
  else (.unknownTerminal, 3)

/-- Composition of one terminal monitor iteration with the dispatch in
main: the outcome produced for a poll that reports the given outer
state and inner application state. -/
def terminalOutcome (state appState : String) : Option (Outcome × Nat) :=
  (monitorStep (.status state appState)).map mainOutcome

theorem remote_schemes_fixed :
    ∀ s ∈ REMOTE_SCHEMES, s.map Char.toLower = s ∧ s ≠ [] := by
  decide

theorem splitScheme_nil_fst : (splitScheme []).1 = [] := rfl

theorem dictLookup_dictInsert (d : List (Chars × Chars)) (k v : Chars) :
    dictLookup (dictInsert d k v) k = some v := by
  induction d with
  | nil => simp [dictInsert, dictLookup]
  | cons p rest ih =>
    by_cases h : p.1 = k
    · simp [dictInsert, dictLookup, h]
    · simp [dictInsert, dictLookup, h, ih]

theorem mem_of_mem_dropWhile {p : Char → Bool} {a : Char} :
    ∀ {l : Chars}, a ∈ l.dropWhile p → a ∈ l := by
  intro l
  induction l with
  | nil => intro h; simp at h
  | cons c cs ih =>
    intro h
    rw [List.dropWhile_cons] at h
    split at h
    · exact List.mem_cons_of_mem _ (ih h)
    · exact h

theorem mem_of_mem_pyStrip {a : Char} {l : Chars} (h : a ∈ pyStrip l) : a ∈ l := by
  unfold pyStrip at h
  rw [List.mem_reverse] at h
  have h2 := mem_of_mem_dropWhile h
  rw [List.mem_reverse] at h2
  exact mem_of_mem_dropWhile h2

theorem parseConfStep_no_eq {item : Chars} (h : '=' ∉ item)
    (d : List (Chars × Chars)) : parseConfStep d item = d := by
  have hs : '=' ∉ pyStrip item := fun hm => h (mem_of_mem_pyStrip hm)
  simp [parseConfStep, hs]

/-- Claim C4: a string whose URI scheme is in the fixed remote allow-list
classifies Remote (not local) whatever the filesystem contents, and so
does a string with any other scheme token longer than one character. The
scheme produced by splitScheme is already lowercased, exactly as
urllib.parse lowercases it, so membership of that scheme in the
allow-list is the case-insensitive check of the claim. -/
theorem remote_scheme_classifies_remote (fs : Chars → Bool)
    (expand : Chars → Chars) (path : Chars) :
    ((splitScheme path).1 ∈ REMOTE_SCHEMES → is_local_file fs expand path = false) ∧
    ((splitScheme path).1 ≠ [] → 1 < (splitScheme path).1.length →
      is_local_file fs expand path = false) := by
  constructor
  · intro h
    obtain ⟨hfix, hne⟩ := remote_schemes_fixed _ h
    have hpath : ¬ path = [] := by
      intro hp
      rw [hp] at hne
      exact hne splitScheme_nil_fst
    unfold is_local_file
    rw [if_neg hpath, if_pos ⟨hne, by rw [hfix]; exact h⟩]
  · intro hne hlen
    have hpath : ¬ path = [] := by
      intro hp
      rw [hp] at hne
      exact hne splitScheme_nil_fst
    unfold is_local_file
    rw [if_neg hpath]
    by_cases hc : (splitScheme path).1 ≠ [] ∧
        ((splitScheme path).1.map Char.toLower) ∈ REMOTE_SCHEMES
    · rw [if_pos hc]
    · rw [if_neg hc, if_pos ⟨hne, hlen⟩]

/-- Witness for C4: an allow-listed scheme written in upper case and an
unknown multi-character scheme both classify Remote even when every
file exists on the local filesystem. -/
theorem remote_scheme_classifies_remote_witness :
    is_local_file (fun _ => true) (fun x => x) ("HDFS://a/b".data) = false ∧
    is_local_file (fun _ => true) (fun x => x) ("myscheme://a/b".data) = false := by
  constructor
  · exact (remote_scheme_classifies_remote _ _ _).1 (by decide)
  · exact (remote_scheme_classifies_remote _ _ _).2 (by decide) (by decide)

/-- Claim C5: whatever the caller supplies for conf, a delimited string
or a pre-built mapping, even one that itself sets the deploy-mode key,
the configuration of the built request maps spark.submit.deployMode to
cluster, because the forced assignment happens after the caller entries
are merged. -/
theorem conf_forces_cluster_deploy_mode (fs : Chars → Bool)
    (expand : Chars → Chars) (resource : Chars) (classname : Option Chars)
    (jobName : Chars) (args : ArgsInput) (conf : ConfInput)
    (pyFiles jars : FilesInput) :
    dictLookup (submitBatchPlan fs expand resource classname jobName args conf
        pyFiles jars).request.conf DEPLOY_MODE_KEY = some ("cluster".data) := by
  unfold submitBatchPlan
  exact dictLookup_dictInsert _ _ _

/-- Claim C10: parse_conf of an empty (or absent) configuration string is
the empty mapping; an item with no equals sign leaves the dictionary
unchanged, both as a single fold step and wherever it occurs in the item
list, so it contributes no key and raises nothing (the function is
total). -/
theorem parse_conf_drops_items_without_equals (d : List (Chars × Chars))
    (item : Chars) (xs ys : List Chars) :
    parse_conf [] = [] ∧
    confMap ConfInput.confNone = [] ∧
    ('=' ∉ item → parseConfStep d item = d) ∧
    ('=' ∉ item →
      (xs ++ item :: ys).foldl parseConfStep d = (xs ++ ys).foldl parseConfStep d) := by
  refine ⟨rfl, rfl, fun h => parseConfStep_no_eq h d, fun h => ?_⟩
  rw [List.foldl_append, List.foldl_append, List.foldl_cons, parseConfStep_no_eq h]

/-- Witness for C10: the item bogus has no equals sign and is dropped. -/
theorem parse_conf_drops_items_without_equals_witness :
    parseConfStep [] ("bogus".data) = [] :=
  (parse_conf_drops_items_without_equals [] ("bogus".data) [] []).2.2.1 (by decide)

/-- Counterexample to claim C1 as stated: for a submission whose primary
resource job.py classifies Local (the file exists and the string has no
scheme), multipart upload is chosen, yet the resource field of the
batchRequest JSON part is absent, not a non-empty placeholder: the
source only sets the resource key when the resource is remote. -/
theorem multipart_resource_field_cex :
    is_local_file (fun p => decide (p = ("job.py".data))) (fun x => x)
      ("job.py".data) = true ∧
    (submitBatchPlan (fun p => decide (p = ("job.py".data))) (fun x => x)
      ("job.py".data) none ("demo".data) ArgsInput.argNone ConfInput.confNone
      FilesInput.filesNone FilesInput.filesNone).usesMultipart = true ∧
    (submitBatchPlan (fun p => decide (p = ("job.py".data))) (fun x => x)
      ("job.py".data) none ("demo".data) ArgsInput.argNone ConfInput.confNone
      FilesInput.filesNone FilesInput.filesNone).request.resource = none := by
  refine ⟨by decide, by decide, by decide⟩

/-- Claim C1 amended: whenever the primary resource classifies Local,
the multipart transport is selected and the batchRequest JSON part
omits the resource field entirely; the real bytes travel as the
resourceFile part instead. -/
theorem multipart_resource_field_amended (fs : Chars → Bool)
    (expand : Chars → Chars) (resource : Chars) (classname : Option Chars)
    (jobName : Chars) (args : ArgsInput) (conf : ConfInput)
    (pyFiles jars : FilesInput)
    (h : is_local_file fs expand resource = true) :
    (submitBatchPlan fs expand resource classname jobName args conf pyFiles
        jars).request.resource = none ∧
    (submitBatchPlan fs expand resource classname jobName args conf pyFiles
        jars).usesMultipart = true ∧
    (submitBatchPlan fs expand resource classname jobName args conf pyFiles
        jars).resourceUpload = some (expand resource) := by
  unfold submitBatchPlan
  simp [h]

/-- Witness for the amended C1 at a concrete local resource. -/
theorem multipart_resource_field_amended_witness :
    (submitBatchPlan (fun p => decide (p = ("a.py".data))) (fun x => x)
      ("a.py".data) none ("n".data) ArgsInput.argNone ConfInput.confNone
      FilesInput.filesNone FilesInput.filesNone).request.resource = none ∧
    (submitBatchPlan (fun p => decide (p = ("a.py".data))) (fun x => x)
      ("a.py".data) none ("n".data) ArgsInput.argNone ConfInput.confNone
      FilesInput.filesNone FilesInput.filesNone).usesMultipart = true ∧
    (submitBatchPlan (fun p => decide (p = ("a.py".data))) (fun x => x)
      ("a.py".data) none ("n".data) ArgsInput.argNone ConfInput.confNone
      FilesInput.filesNone FilesInput.filesNone).resourceUpload =
        some ("a.py".data) :=
  multipart_resource_field_amended _ _ _ _ _ _ _ _ _ (by decide)

/-- Claim C9: job-kind inference is extension-only. The three sample
resources infer as the claim states, any two resources with the same
lowercased extension infer the same kind, and the batchType of the built
request is the pure function of that inference, independent of the
filesystem and expansion environment and hence of whether the resource
is local or remote. -/
theorem job_kind_inference_extension_only (r1 r2 : Chars) (fs : Chars → Bool)
    (expand : Chars → Chars) (resource : Chars) (classname : Option Chars)
    (jobName : Chars) (args : ArgsInput) (conf : ConfInput)
    (pyFiles jars : FilesInput) :
    is_python_resource ("resource.tar.py".data) = true ∧
    is_python_resource ("resource.PY".data) = true ∧
    is_python_resource ("resource.jar".data) = false ∧
    (get_file_extension r1 = get_file_extension r2 →
      is_python_resource r1 = is_python_resource r2) ∧
    (submitBatchPlan fs expand resource classname jobName args conf pyFiles
        jars).request.batchType =
      (if is_python_resource resource then "pyspark".data else "spark".data) := by
  refine ⟨by decide, by decide, by decide, fun h => ?_, rfl⟩
  unfold is_python_resource
  rw [h]

/-- Witness for C9: two paths with the same extension, one bare and one
under a directory, infer the same job kind. -/
theorem job_kind_inference_extension_only_witness :
    is_python_resource ("a.py".data) = is_python_resource ("dir/a.py".data) :=
  (job_kind_inference_extension_only ("a.py".data) ("dir/a.py".data)
    (fun _ => true) (fun x => x) [] none [] ArgsInput.argNone
    ConfInput.confNone FilesInput.filesNone FilesInput.filesNone).2.2.2.1
    (by decide)

/-- Claim C6: the submission returns a batch identifier only when the
HTTP status is 200 or 201; on any other status it raises an error that
carries the response status (and the source performs no retry, the
response is handled exactly once). -/
theorem submit_success_codes_only (statusCode : Nat) (bodyId : Option Chars) :
    ((∃ i, submitOutcome statusCode bodyId = SubmitResult.ok i) →
      statusCode = 200 ∨ statusCode = 201) ∧
    (¬(statusCode = 200 ∨ statusCode = 201) →
      submitOutcome statusCode bodyId = SubmitResult.submissionError statusCode) := by
  constructor
  · rintro ⟨i, hi⟩
    by_contra h
    unfold submitOutcome at hi
    rw [if_pos h] at hi
    exact SubmitResult.noConfusion hi
  · intro h
    unfold submitOutcome
    rw [if_pos h]

/-- Witness for C6: status 200 with an id succeeds, status 500 raises an
error carrying 500. -/
theorem submit_success_codes_only_witness :
    (200 = 200 ∨ 200 = 201) ∧
    submitOutcome 500 (some ("b1".data)) =
      SubmitResult.submissionError 500 :=
  ⟨(submit_success_codes_only 200 (some ("b1".data))).1 ⟨("b1".data), rfl⟩,
   (submit_success_codes_only 500 (some ("b1".data))).2 (by decide)⟩

theorem monitorStep_terminal_isSome (s a : String)
    (h : s = "FINISHED" ∨ s = "ERROR" ∨ s = "CANCELLED") :
    (monitorStep (PollResult.status s a)).isSome = true := by
  rcases h with h | h | h <;> subst h <;> simp [monitorStep]

theorem monitorRun_cons_none {q : PollResult} (hq : monitorStep q = none)
    (l : List PollResult) :
    monitorRun (q :: l) = ((monitorRun l).1, (monitorRun l).2 + 1) := by
  simp [monitorRun, hq]

/-- Claim C3: a FINISHED outer state with an absent inner state yields
Succeeded by deferring to the outer state; a FINISHED outer state with a
success inner state yields Succeeded; and a terminal poll whose pair of
states maps to none of the Succeeded, Failed or Cancelled buckets (the
outer state is neither ERROR nor CANCELLED, which by themselves mean
Failed and Cancelled, and the inner state is present and matches no
success, failure or cancellation state) yields the distinct
unknown-terminal outcome with exit code 3, never Succeeded or Failed. -/
theorem terminal_state_outcome_mapping (s a : String) :
    terminalOutcome ("FINISHED") ("") = some (Outcome.succeeded, 0) ∧
    (a = "SUCCESS" ∨ a = "SUCCEEDED" →
      terminalOutcome ("FINISHED") a = some (Outcome.succeeded, 0)) ∧
    (s = "FINISHED" ∨ s = "ERROR" ∨ s = "CANCELLED" →
      s ≠ "ERROR" → s ≠ "CANCELLED" → a ≠ "" →
      a ≠ "SUCCESS" → a ≠ "SUCCEEDED" → a ≠ "FINISHED" →
      a ≠ "FAILED" → a ≠ "ERROR" → a ≠ "CANCELLED" →
      terminalOutcome s a = some (Outcome.unknownTerminal, 3) ∧
      Outcome.unknownTerminal ≠ Outcome.succeeded ∧
      Outcome.unknownTerminal ≠ Outcome.failed) := by
  refine ⟨by decide, fun h => ?_, ?_⟩
  · rcases h with h | h <;> subst h <;> decide
  · intro hterm hne hnc ha h1 h2 h3 h4 h5 h6
    have hs : s = "FINISHED" := by
      rcases hterm with h | h | h
      · exact h
      · exact absurd h hne
      · exact absurd h hnc
    subst hs
    refine ⟨?_, by decide, by decide⟩
    simp [terminalOutcome, monitorStep, mainOutcome, ha, h1, h2, h3, h4, h5, h6]

/-- Witness for C3: a FINISHED outer state with inner state SUCCESS is
Succeeded, and with the unrecognised inner state WEIRD the outcome is
unknown-terminal with exit code 3. -/
theorem terminal_state_outcome_mapping_witness :
    terminalOutcome ("FINISHED") ("SUCCESS") = some (Outcome.succeeded, 0) ∧
    terminalOutcome ("FINISHED") ("WEIRD") = some (Outcome.unknownTerminal, 3) := by
  constructor
  · exact (terminal_state_outcome_mapping ("FINISHED") ("SUCCESS")).2.1 (Or.inl rfl)
  · exact ((terminal_state_outcome_mapping ("FINISHED") ("WEIRD")).2.2
      (Or.inl rfl) (by decide) (by decide) (by decide) (by decide) (by decide)
      (by decide) (by decide) (by decide) (by decide)).1

/-- Claim C7: a failed status poll (an exception, or the None that
get_batch_status returns on any non-200 response) never terminates the
monitor loop and never changes its eventual outcome; the loop simply
issues one more poll on the next tick. -/
theorem transient_poll_failure_continues (rest : List PollResult)
    (httpStatus : Nat) (body : String) :
    monitorStep PollResult.failed = none ∧
    (monitorRun (PollResult.failed :: rest)).1 = (monitorRun rest).1 ∧
    (monitorRun (PollResult.failed :: rest)).2 = (monitorRun rest).2 + 1 ∧
    (httpStatus ≠ 200 → getBatchStatus httpStatus body = none) := by
  refine ⟨rfl, by simp [monitorRun, monitorStep], by simp [monitorRun, monitorStep],
    fun h => ?_⟩
  simp [getBatchStatus, h]

/-- Witness for C7: a 503 status poll yields None, which the loop
absorbs. -/
theorem transient_poll_failure_continues_witness :
    getBatchStatus 503 ("oops") = none :=
  (transient_poll_failure_continues [] 503 ("oops")).2.2.2 (by decide)

/-- Claim C8: the monitor loop returns on the first poll whose outer
state is FINISHED, ERROR or CANCELLED: when every earlier poll was
non-terminal (or failed), the run ends at that poll, issues exactly the
polls up to and including it, and its result does not depend on any
later poll. -/
theorem monitor_stops_at_first_terminal (pre rest : List PollResult)
    (s a : String)
    (hpre : ∀ p ∈ pre, monitorStep p = none)
    (hterm : s = "FINISHED" ∨ s = "ERROR" ∨ s = "CANCELLED") :
    monitorRun (pre ++ PollResult.status s a :: rest) =
      (monitorStep (PollResult.status s a), pre.length + 1) := by
  obtain ⟨r, hr⟩ := Option.isSome_iff_exists.mp
    (monitorStep_terminal_isSome s a hterm)
  induction pre with
  | nil => simp [monitorRun, hr]
  | cons q pre ih =>
    have hq : monitorStep q = none := hpre q (List.mem_cons_self q pre)
    have ih2 := ih (fun p hp => hpre p (List.mem_cons_of_mem q hp))
    rw [List.cons_append, monitorRun_cons_none hq, ih2]
    simp

/-- Witness for C8: after one failed poll, the terminal ERROR poll ends
the run at the second poll; the later FINISHED poll is never issued. -/
theorem monitor_stops_at_first_terminal_witness :
    monitorRun [PollResult.failed, PollResult.status ("ERROR") (""),
      PollResult.status ("FINISHED") ("")] = (some ("ERROR"), 2) := by
  have h := monitor_stops_at_first_terminal [PollResult.failed]
    [PollResult.status ("FINISHED") ("")] ("ERROR") ("")
    (by decide) (Or.inr (Or.inl rfl))
  simpa [monitorStep] using h

/-- A failed or falsy log fetch ends pagination immediately with the
lines printed so far, matching the early break in print_all_logs. -/
theorem print_all_logs_stops_on_failed_fetch (server : Nat → Option LogChunk)
    (fuel fromIndex printed : Nat) (h : server fromIndex = none) :
    printAllLogs server (fuel + 1) fromIndex printed = some printed := by
  simp [printAllLogs, h]

/-- Claim C2 fails on the code: against a server that answers every log
fetch with a well-formed window that is empty while reporting one total
line, the pagination loop of print_all_logs never terminates; it
re-requests the same offset forever, for any amount of fuel. The early
break only fires when the fetch result itself is missing or falsy, not
when the returned window of lines is empty. -/
theorem print_all_logs_empty_window_loops :
    ∀ fuel printed,
      printAllLogs (fun _ => some { logRowSet := [], total := 1 })
        fuel 0 printed = none := by
  intro fuel
  induction fuel with
  | zero => intro printed; rfl
  | succ n ih =>
    intro printed
    simpa [printAllLogs] using ih (printed + 0)
